import Mathlib

/-!
Shallow embedding of the topology-discovery subsystem of ng-monitoring
(package topology, file component/topology/topology.go).

External registry calls (topo.GetTiDBInstances, topo.GetPDInstances,
topo.GetStoreInstances) are modelled as inputs: a RegistryState record holds
the result each upstream registry would return during one cycle.  Go channels
of capacity one are modelled as Option values (none = empty, some v = one
unread value).  The background loop is modelled as a step function over an
explicit event list.
-/

set_option autoImplicit false

namespace Ngm

/-- Health status reported by an upstream registry for one instance
(topo.ComponentStatus in the tidb-dashboard util/topo package; the code
only ever compares against ComponentStatusUp). -/
inductive ComponentStatus where
  | unreachable
  | up
  | tombstone
  | leaving
  | down
  deriving DecidableEq, Repr

/-- Name constant for the SQL tier (const ComponentTiDB = "tidb"). -/
def ComponentTiDB : String := "tidb"

/-- Name constant for the transactional storage tier (const ComponentTiKV = "tikv"). -/
def ComponentTiKV : String := "tikv"

/-- Name constant for the analytical storage tier (const ComponentTiFlash = "tiflash"). -/
def ComponentTiFlash : String := "tiflash"

/-- Name constant for the cluster-manager tier (const ComponentPD = "pd"). -/
def ComponentPD : String := "pd"

/-- Normalized record for one discovered cluster member (struct Component). -/
structure Component where
  name : String
  ip : String
  port : Nat
  statusPort : Nat
  deriving DecidableEq, Repr

/-- One SQL-tier instance as reported by the etcd-backed registry
(topo.TiDBInfo: the fields the adapter reads). -/
structure TiDBInfo where
  ip : String
  port : Nat
  statusPort : Nat
  status : ComponentStatus
  deriving DecidableEq, Repr

/-- One cluster-manager instance as reported by the PD HTTP API
(topo.PDInfo: the fields the adapter reads; this tier reports no separate
status port). -/
structure PDInfo where
  ip : String
  port : Nat
  status : ComponentStatus
  deriving DecidableEq, Repr

/-- One storage-tier instance as reported by the PD HTTP API
(topo.StoreInfo: the fields the adapter reads). -/
structure StoreInfo where
  ip : String
  port : Nat
  statusPort : Nat
  status : ComponentStatus
  deriving DecidableEq, Repr

deriving instance DecidableEq for Except

/-- Results the three upstream registries would deliver during one cycle:
tidb from topo.GetTiDBInstances, pd from topo.GetPDInstances, store from
topo.GetStoreInstances (which yields the tikv and tiflash lists in one call).
Errors are modelled as strings. -/
structure RegistryState where
  tidb : Except String (List TiDBInfo)
  pd : Except String (List PDInfo)
  store : Except String (List StoreInfo × List StoreInfo)
  deriving DecidableEq, Repr

/-- Loop body of getTiDBComponents (lines 164-174): skip every instance whose
status is not up, otherwise append a record keeping the instance status port. -/
def tidbToComponents (instances : List TiDBInfo) : List Component :=
  instances.filterMap fun inst =>
    if inst.status != ComponentStatus.up then none
    else some { name := ComponentTiDB, ip := inst.ip,
                port := inst.port, statusPort := inst.statusPort }

/-- Loop body of getPDComponents (lines 184-194): skip every instance whose
status is not up, otherwise append a record whose StatusPort field is the
Port field. -/
def pdToComponents (instances : List PDInfo) : List Component :=
  instances.filterMap fun inst =>
    if inst.status != ComponentStatus.up then none
    else some { name := ComponentPD, ip := inst.ip,
                port := inst.port, statusPort := inst.port }

/-- Inner helper getComponents of getStoreComponents (lines 204-216): skip
every instance whose status is not up, otherwise append a record with the
given tier name keeping the instance status port. -/
def storeToComponents (instances : List StoreInfo) (name : String) : List Component :=
  instances.filterMap fun inst =>
    if inst.status != ComponentStatus.up then none
    else some { name := name, ip := inst.ip,
                port := inst.port, statusPort := inst.statusPort }

/-- getTiDBComponents (lines 158-176): propagate a registry error, otherwise
normalize the instance list. -/
def getTiDBComponents (r : Except String (List TiDBInfo)) : Except String (List Component) :=
  match r with
  | .error e => .error e
  | .ok instances => .ok (tidbToComponents instances)

/-- getPDComponents (lines 178-196): propagate a registry error, otherwise
normalize the instance list. -/
def getPDComponents (r : Except String (List PDInfo)) : Except String (List Component) :=
  match r with
  | .error e => .error e
  | .ok instances => .ok (pdToComponents instances)

/-- getStoreComponents (lines 198-219): propagate a registry error, otherwise
normalize the tikv list then the tiflash list. -/
def getStoreComponents (r : Except String (List StoreInfo × List StoreInfo)) :
    Except String (List Component) :=
  match r with
  | .error e => .error e
  | .ok (tikvInstances, tiflashInstances) =>
      .ok (storeToComponents tikvInstances ComponentTiKV ++
           storeToComponents tiflashInstances ComponentTiFlash)

/-- getAllScrapeTargets (lines 141-156): call the three adapters in order
tidb, pd, store; the first error aborts the whole cycle; on success the
results are appended in that order. -/
def getAllScrapeTargets (reg : RegistryState) : Except String (List Component) :=
  match getTiDBComponents reg.tidb with
  | .error e => .error e
  | .ok tidbNodes =>
    match getPDComponents reg.pd with
    | .error e => .error e
    | .ok pdNodes =>
      match getStoreComponents reg.store with
      | .error e => .error e
      | .ok storeNodes => .ok (tidbNodes ++ pdNodes ++ storeNodes)

/-- State of a TopologyDiscoverer (struct TopologyDiscoverer, without the two
registry clients, which the pure model passes as RegistryState instead).
A subscriber channel of capacity one is an Option value; notifyCh is a
capacity-one channel of unit, so a Bool (true = one pending signal). -/
structure TopologyDiscoverer where
  subscriber : List (Option (List Component))
  components : List Component
  notifyCh : Bool
  closed : Bool
  deriving DecidableEq, Repr

/-- Configuration fields NewTopologyDiscoverer reads (cfg.PD.Endpoints). -/
structure PDConfig where
  endpoints : List String
  deriving DecidableEq, Repr

/-- Configuration record handed to NewTopologyDiscoverer. -/
structure Config where
  pd : PDConfig
  deriving DecidableEq, Repr

/-- Outcomes of the two external client constructors invoked by
NewTopologyDiscoverer (pdclient.NewAPIClient and pdclient.NewEtcdClient);
the clients themselves carry no data the pure model uses. -/
structure ClientEnv where
  newAPIClient : Except String Unit
  newEtcdClient : Except String Unit
  deriving DecidableEq, Repr

/-- Error message returned for an empty endpoint list (line 48). -/
def emptyEndpointsMsg : String :=
  "unexpected empty pd endpoints, please specify at least one pd endpoint"

/-- NewTopologyDiscoverer (lines 46-74): reject an empty endpoint list before
either client constructor runs; then construct the API client, then the etcd
client, propagating either failure; on success the discoverer starts with no
subscribers, no components, an empty notify channel and an open closed
channel. -/
def NewTopologyDiscoverer (cfg : Config) (env : ClientEnv) :
    Except String TopologyDiscoverer :=
  if cfg.pd.endpoints.length = 0 then
    .error emptyEndpointsMsg
  else
    match env.newAPIClient with
    | .error e => .error e
    | .ok _ =>
      match env.newEtcdClient with
      | .error e => .error e
      | .ok _ => .ok { subscriber := [], components := [],
                       notifyCh := false, closed := false }

/-- Subscribe (lines 76-87): append a fresh empty capacity-one channel to the
subscriber list under the mutex, then perform a non-blocking send on notifyCh
(the select with default: if a signal is already pending the send is dropped
silently).  Returns the new state and the index of the new channel. -/
def TopologyDiscoverer.Subscribe (d : TopologyDiscoverer) :
    TopologyDiscoverer × Nat :=
  let d1 : TopologyDiscoverer := { d with subscriber := d.subscriber ++ [none] }
  let d2 : TopologyDiscoverer := if d1.notifyCh then d1 else { d1 with notifyCh := true }
  (d2, d.subscriber.length)

/-- loadTopology (lines 121-130): run getAllScrapeTargets; on error return the
state unchanged together with the error; on success replace the components
field wholesale. -/
def TopologyDiscoverer.loadTopology (d : TopologyDiscoverer) (reg : RegistryState) :
    TopologyDiscoverer × Option String :=
  match getAllScrapeTargets reg with
  | .error e => (d, some e)
  | .ok components => ({ d with components := components }, none)

/-- notifySubscriber (lines 132-139): for every subscriber channel attempt a
non-blocking send of the current components (the select with default: an
empty channel receives the snapshot, a full channel keeps its unread value
and the send is dropped). -/
def TopologyDiscoverer.notifySubscriber (d : TopologyDiscoverer) : TopologyDiscoverer :=
  { d with subscriber := d.subscriber.map fun ch =>
      match ch with
      | none => some d.components
      | some v => some v }

/-- Events the select statement of loadTopologyLoop can react to (lines
103-118), plus an external Subscribe call interleaved between two loop
iterations.  A tick event carries the registry results the cycle would
observe. -/
inductive LoopEvent where
  | tick (reg : RegistryState)
  | recvNotify
  | subscribeEv
  deriving Repr

/-- One iteration of the select statement of loadTopologyLoop (lines
103-118): a ticker tick runs loadTopology (keeping the previous components on
error) and then notifySubscriber; a receive on notifyCh (possible only when a
signal is pending) drains the channel and runs notifySubscriber alone; an
interleaved Subscribe call runs Subscribe. -/
def loopStep (d : TopologyDiscoverer) (e : LoopEvent) : TopologyDiscoverer :=
  match e with
  | .tick reg => ((d.loadTopology reg).1).notifySubscriber
  | .recvNotify =>
      if d.notifyCh then ({ d with notifyCh := false }).notifySubscriber else d
  | .subscribeEv => (TopologyDiscoverer.Subscribe d).1

/-- loadTopologyLoop (lines 98-119): an immediate first loadTopology (line 99,
with registry results reg0, and not followed by any notification), then the
select loop, one loopStep per event. -/
def loadTopologyLoop (d : TopologyDiscoverer) (reg0 : RegistryState)
    (events : List LoopEvent) : TopologyDiscoverer :=
  events.foldl loopStep (d.loadTopology reg0).1

/-- Predicate of the snapshot invariant: the components field is the initial
empty list or the complete result of a fully successful getAllScrapeTargets
run on some registry state. -/
def snapshotOK (cs : List Component) : Prop :=
  cs = [] ∨ ∃ reg : RegistryState, getAllScrapeTargets reg = Except.ok cs

/-- Atomic actions on the embedded sync.Mutex, the subscriber list and the
two channels, as they appear syntactically in the source. -/
inductive LockAction where
  | acquire
  | release
  | appendSubscriber
  | sendNotifySignal
  | iterateAndSend
  deriving DecidableEq, Repr

/-- Actions of Subscribe in source order (lines 78-85): d.Lock(), the append,
d.Unlock(), then the select-with-default send on notifyCh. -/
def subscribeActions : List LockAction :=
  [LockAction.acquire, LockAction.appendSubscriber,
   LockAction.release, LockAction.sendNotifySignal]

/-- Actions of notifySubscriber in source order (lines 133-138): only the
range loop with its select-with-default sends; the mutex is never touched. -/
def notifySubscriberActions : List LockAction :=
  [LockAction.iterateAndSend]

/-- Actions of a sequence that are performed while the mutex is held, given
whether it is held on entry. -/
def underLock : List LockAction → Bool → List LockAction
  | [], _ => []
  | LockAction.acquire :: rest, _ => underLock rest true
  | LockAction.release :: rest, _ => underLock rest false
  | a :: rest, held => (if held then [a] else []) ++ underLock rest held

/-- Whether an action can wait on another task: a mutex acquire can; the
append and release complete immediately, and both channel operations are
selects with a default case, hence non-blocking. -/
def canBlockOn : LockAction → Bool
  | LockAction.acquire => true
  | _ => false

/-- Fixture: an up SQL-tier instance. -/
def tidbUpA : TiDBInfo := { ip := "10.0.0.1", port := 4000, statusPort := 10080,
                            status := ComponentStatus.up }

/-- Fixture: an up cluster-manager instance. -/
def pdUpA : PDInfo := { ip := "10.0.0.2", port := 2379, status := ComponentStatus.up }

/-- Fixture: an up transactional-storage instance. -/
def tikvUpA : StoreInfo := { ip := "10.0.0.3", port := 20160, statusPort := 20180,
                             status := ComponentStatus.up }

/-- Fixture: a registry state on which every adapter succeeds. -/
def regGood : RegistryState :=
  { tidb := Except.ok [tidbUpA], pd := Except.ok [pdUpA],
    store := Except.ok ([tikvUpA], []) }

/-- Fixture: a registry state whose SQL-tier query fails. -/
def regErr : RegistryState :=
  { tidb := Except.error "pd unreachable", pd := Except.ok [],
    store := Except.ok ([], []) }

/-- Fixture: a freshly constructed discoverer. -/
def d0 : TopologyDiscoverer :=
  { subscriber := [], components := [], notifyCh := false, closed := false }

/-- Fixture: a discoverer with one empty mailbox and no pending signal. -/
def dOneSub : TopologyDiscoverer :=
  { subscriber := [none], components := [], notifyCh := false, closed := false }

/-- Fixture: a discoverer with one empty mailbox and a pending signal. -/
def dPending : TopologyDiscoverer :=
  { subscriber := [none], components := [], notifyCh := true, closed := false }

/-- notifySubscriber leaves the components field unchanged. -/
@[simp]
theorem notifySubscriber_components (d : TopologyDiscoverer) :
    (d.notifySubscriber).components = d.components := rfl

/-- Subscribe leaves the components field unchanged. -/
@[simp]
theorem subscribe_fst_components (d : TopologyDiscoverer) :
    ((TopologyDiscoverer.Subscribe d).1).components = d.components := by
  by_cases h : d.notifyCh <;> simp [TopologyDiscoverer.Subscribe, h]

/-- Subscribe appends one empty mailbox to the subscriber list. -/
theorem subscribe_fst_subscriber (d : TopologyDiscoverer) :
    ((TopologyDiscoverer.Subscribe d).1).subscriber = d.subscriber ++ [none] := by
  by_cases h : d.notifyCh <;> simp [TopologyDiscoverer.Subscribe, h]

/-- After Subscribe a signal is always pending: the non-blocking send either
deposits one or finds one already there. -/
theorem subscribe_fst_notifyCh (d : TopologyDiscoverer) :
    ((TopologyDiscoverer.Subscribe d).1).notifyCh = true := by
  by_cases h : d.notifyCh <;> simp [TopologyDiscoverer.Subscribe, h]

/-- Every loop step preserves the snapshot invariant. -/
theorem loopStep_snapshotOK (d : TopologyDiscoverer) (e : LoopEvent)
    (h : snapshotOK d.components) : snapshotOK (loopStep d e).components := by
  cases e with
  | tick reg =>
      rcases hr : getAllScrapeTargets reg with er | cs
      · simpa [loopStep, TopologyDiscoverer.loadTopology, hr] using h
      · simp [loopStep, TopologyDiscoverer.loadTopology, hr]
        exact Or.inr ⟨reg, hr⟩
  | recvNotify =>
      by_cases hn : d.notifyCh <;> simpa [loopStep, hn] using h
  | subscribeEv =>
      simpa [loopStep] using h

/-- The first loadTopology of the loop preserves the snapshot invariant. -/
theorem loadTopology_fst_snapshotOK (d : TopologyDiscoverer) (reg : RegistryState)
    (h : snapshotOK d.components) : snapshotOK ((d.loadTopology reg).1).components := by
  rcases hr : getAllScrapeTargets reg with er | cs
  · simpa [TopologyDiscoverer.loadTopology, hr] using h
  · simp [TopologyDiscoverer.loadTopology, hr]
    exact Or.inr ⟨reg, hr⟩

/-- Folding loop steps over any event list preserves the snapshot invariant. -/
theorem foldl_loopStep_snapshotOK (events : List LoopEvent) (d : TopologyDiscoverer)
    (h : snapshotOK d.components) :
    snapshotOK ((events.foldl loopStep d).components) := by
  induction events generalizing d with
  | nil => exact h
  | cons e rest ih => exact ih _ (loopStep_snapshotOK d e h)

/-- Membership characterization of the SQL-tier normalizer. -/
theorem mem_tidbToComponents {c : Component} {ts : List TiDBInfo} :
    c ∈ tidbToComponents ts ↔
      ∃ i, i ∈ ts ∧ i.status = ComponentStatus.up ∧
        c = { name := ComponentTiDB, ip := i.ip, port := i.port,
              statusPort := i.statusPort } := by
  simp only [tidbToComponents, List.mem_filterMap]
  constructor
  · rintro ⟨i, hi, hf⟩
    by_cases hs : i.status = ComponentStatus.up
    · simp only [hs, bne_self_eq_false, Bool.false_eq_true, if_false,
        Option.some.injEq] at hf
      exact ⟨i, hi, hs, hf.symm⟩
    · simp [bne_iff_ne, hs] at hf
  · rintro ⟨i, hi, hs, rfl⟩
    exact ⟨i, hi, by simp [hs]⟩

/-- Membership characterization of the cluster-manager normalizer. -/
theorem mem_pdToComponents {c : Component} {ps : List PDInfo} :
    c ∈ pdToComponents ps ↔
      ∃ i, i ∈ ps ∧ i.status = ComponentStatus.up ∧
        c = { name := ComponentPD, ip := i.ip, port := i.port,
              statusPort := i.port } := by
  simp only [pdToComponents, List.mem_filterMap]
  constructor
  · rintro ⟨i, hi, hf⟩
    by_cases hs : i.status = ComponentStatus.up
    · simp only [hs, bne_self_eq_false, Bool.false_eq_true, if_false,
        Option.some.injEq] at hf
      exact ⟨i, hi, hs, hf.symm⟩
    · simp [bne_iff_ne, hs] at hf
  · rintro ⟨i, hi, hs, rfl⟩
    exact ⟨i, hi, by simp [hs]⟩

/-- Membership characterization of the storage-tier normalizer. -/
theorem mem_storeToComponents {c : Component} {ss : List StoreInfo} {nm : String} :
    c ∈ storeToComponents ss nm ↔
      ∃ i, i ∈ ss ∧ i.status = ComponentStatus.up ∧
        c = { name := nm, ip := i.ip, port := i.port,
              statusPort := i.statusPort } := by
  simp only [storeToComponents, List.mem_filterMap]
  constructor
  · rintro ⟨i, hi, hf⟩
    by_cases hs : i.status = ComponentStatus.up
    · simp only [hs, bne_self_eq_false, Bool.false_eq_true, if_false,
        Option.some.injEq] at hf
      exact ⟨i, hi, hs, hf.symm⟩
    · simp [bne_iff_ne, hs] at hf
  · rintro ⟨i, hi, hs, rfl⟩
    exact ⟨i, hi, by simp [hs]⟩

/-- C2: for every cycle in which all three adapters succeed, the snapshot is
the concatenation, in this fixed order, of the normalized tidb records, then
the pd records, then the tikv records, then the tiflash records, each tier in
adapter order. -/
theorem getAllScrapeTargets_order (ts : List TiDBInfo) (ps : List PDInfo)
    (ks fs : List StoreInfo) :
    getAllScrapeTargets
        { tidb := Except.ok ts, pd := Except.ok ps, store := Except.ok (ks, fs) } =
      Except.ok (tidbToComponents ts ++ pdToComponents ps ++
        storeToComponents ks ComponentTiKV ++ storeToComponents fs ComponentTiFlash) := by
  simp [getAllScrapeTargets, getTiDBComponents, getPDComponents, getStoreComponents,
    List.append_assoc]

/-- C7: construction succeeds for every configuration with at least one pd
endpoint and successfully constructed clients; for an empty endpoint list it
fails with the endpoint error whatever the client constructors would do; and
it fails with the client error if the HTTP API client or the etcd client
cannot be constructed. -/
theorem newTopologyDiscoverer_spec (cfg : Config) (env : ClientEnv) :
    (cfg.pd.endpoints = [] →
      ∀ env2 : ClientEnv,
        NewTopologyDiscoverer cfg env2 = Except.error emptyEndpointsMsg) ∧
    (cfg.pd.endpoints ≠ [] → env.newAPIClient = Except.ok () →
      env.newEtcdClient = Except.ok () →
      NewTopologyDiscoverer cfg env =
        Except.ok { subscriber := [], components := [],
                    notifyCh := false, closed := false }) ∧
    (∀ e : String, cfg.pd.endpoints ≠ [] → env.newAPIClient = Except.error e →
      NewTopologyDiscoverer cfg env = Except.error e) ∧
    (∀ e : String, cfg.pd.endpoints ≠ [] → env.newAPIClient = Except.ok () →
      env.newEtcdClient = Except.error e →
      NewTopologyDiscoverer cfg env = Except.error e) := by
  refine ⟨?_, ?_, ?_, ?_⟩
  · intro h env2
    simp [NewTopologyDiscoverer, h]
  · intro h h1 h2
    simp [NewTopologyDiscoverer, List.length_eq_zero, h, h1, h2]
  · intro e h h1
    simp [NewTopologyDiscoverer, List.length_eq_zero, h, h1]
  · intro e h h1 h2
    simp [NewTopologyDiscoverer, List.length_eq_zero, h, h1, h2]

/-- C7 witness: with one endpoint and both clients constructed, construction
yields the fresh discoverer; with no endpoint it yields the endpoint error. -/
theorem newTopologyDiscoverer_spec_witness :
    NewTopologyDiscoverer { pd := { endpoints := ["127.0.0.1:2379"] } }
        { newAPIClient := Except.ok (), newEtcdClient := Except.ok () } =
      Except.ok { subscriber := [], components := [],
                  notifyCh := false, closed := false } ∧
    NewTopologyDiscoverer { pd := { endpoints := [] } }
        { newAPIClient := Except.ok (), newEtcdClient := Except.ok () } =
      Except.error emptyEndpointsMsg :=
  ⟨(newTopologyDiscoverer_spec
      { pd := { endpoints := ["127.0.0.1:2379"] } }
      { newAPIClient := Except.ok (), newEtcdClient := Except.ok () }).2.1
      (List.cons_ne_nil _ _) rfl rfl,
   (newTopologyDiscoverer_spec
      { pd := { endpoints := [] } }
      { newAPIClient := Except.ok (), newEtcdClient := Except.ok () }).1
      rfl
      { newAPIClient := Except.ok (), newEtcdClient := Except.ok () }⟩

/-- C8: every record produced by the cluster-manager adapter carries the pd
name and a StatusPort equal to its Port, while SQL-tier and storage-tier
records keep the status port the instance itself reported. -/
theorem pd_statusPort_is_port (c : Component) (ps : List PDInfo)
    (h : c ∈ pdToComponents ps) :
    (c.name = ComponentPD ∧ c.statusPort = c.port ∧
      ∃ i, i ∈ ps ∧ i.status = ComponentStatus.up ∧
        c.ip = i.ip ∧ c.port = i.port) ∧
    (∀ (ts : List TiDBInfo) (c2 : Component), c2 ∈ tidbToComponents ts →
      ∃ i, i ∈ ts ∧ i.status = ComponentStatus.up ∧
        c2.name = ComponentTiDB ∧ c2.ip = i.ip ∧ c2.port = i.port ∧
        c2.statusPort = i.statusPort) ∧
    (∀ (ss : List StoreInfo) (nm : String) (c3 : Component),
      c3 ∈ storeToComponents ss nm →
      ∃ i, i ∈ ss ∧ i.status = ComponentStatus.up ∧
        c3.name = nm ∧ c3.ip = i.ip ∧ c3.port = i.port ∧
        c3.statusPort = i.statusPort) := by
  refine ⟨?_, ?_, ?_⟩
  · rcases mem_pdToComponents.mp h with ⟨i, hi, hs, rfl⟩
    exact ⟨rfl, rfl, i, hi, hs, rfl, rfl⟩
  · intro ts c2 h2
    rcases mem_tidbToComponents.mp h2 with ⟨i, hi, hs, rfl⟩
    exact ⟨i, hi, hs, rfl, rfl, rfl, rfl⟩
  · intro ss nm c3 h3
    rcases mem_storeToComponents.mp h3 with ⟨i, hi, hs, rfl⟩
    exact ⟨i, hi, hs, rfl, rfl, rfl, rfl⟩

/-- C8 witness: the record produced for the up pd fixture instance has
StatusPort equal to Port. -/
theorem pd_statusPort_is_port_witness :
    ({ name := ComponentPD, ip := "10.0.0.2", port := 2379,
       statusPort := 2379 } : Component).name = ComponentPD ∧
    ({ name := ComponentPD, ip := "10.0.0.2", port := 2379,
       statusPort := 2379 } : Component).statusPort =
      ({ name := ComponentPD, ip := "10.0.0.2", port := 2379,
         statusPort := 2379 } : Component).port :=
  ⟨(pd_statusPort_is_port
      { name := ComponentPD, ip := "10.0.0.2", port := 2379, statusPort := 2379 }
      [pdUpA] (by simp [pdToComponents, pdUpA, ComponentPD])).1.1,
   (pd_statusPort_is_port
      { name := ComponentPD, ip := "10.0.0.2", port := 2379, statusPort := 2379 }
      [pdUpA] (by simp [pdToComponents, pdUpA, ComponentPD])).1.2.1⟩

/-- C5: an instance whose status is not up contributes no record: inserting
it anywhere in the input of any adapter leaves the normalized output and the
whole snapshot unchanged, and the adapters still succeed (the instance is
skipped silently, not reported as an error). -/
theorem nonUp_instances_excluded (a : TiDBInfo) (b : PDInfo) (s : StoreInfo)
    (ha : a.status ≠ ComponentStatus.up) (hb : b.status ≠ ComponentStatus.up)
    (hsk : s.status ≠ ComponentStatus.up) :
    (∀ xs ys : List TiDBInfo,
      tidbToComponents (xs ++ a :: ys) = tidbToComponents (xs ++ ys)) ∧
    (∀ xs ys : List PDInfo,
      pdToComponents (xs ++ b :: ys) = pdToComponents (xs ++ ys)) ∧
    (∀ (xs ys : List StoreInfo) (nm : String),
      storeToComponents (xs ++ s :: ys) nm = storeToComponents (xs ++ ys) nm) ∧
    (∀ (txs tys : List TiDBInfo) (ps : List PDInfo) (ks fs : List StoreInfo),
      getAllScrapeTargets
          { tidb := Except.ok (txs ++ a :: tys), pd := Except.ok ps,
            store := Except.ok (ks, fs) } =
        getAllScrapeTargets
          { tidb := Except.ok (txs ++ tys), pd := Except.ok ps,
            store := Except.ok (ks, fs) } ∧
      (getAllScrapeTargets
          { tidb := Except.ok (txs ++ a :: tys), pd := Except.ok ps,
            store := Except.ok (ks, fs) }).isOk = true) := by
  have hta : ∀ xs ys : List TiDBInfo,
      tidbToComponents (xs ++ a :: ys) = tidbToComponents (xs ++ ys) := by
    intro xs ys
    simp [tidbToComponents, List.filterMap_append, List.filterMap_cons,
      bne_iff_ne, ha]
  refine ⟨hta, ?_, ?_, ?_⟩
  · intro xs ys
    simp [pdToComponents, List.filterMap_append, List.filterMap_cons,
      bne_iff_ne, hb]
  · intro xs ys nm
    simp [storeToComponents, List.filterMap_append, List.filterMap_cons,
      bne_iff_ne, hsk]
  · intro txs tys ps ks fs
    constructor
    · simp [getAllScrapeTargets, getTiDBComponents, getPDComponents,
        getStoreComponents, hta txs tys]
    · simp [getAllScrapeTargets, getTiDBComponents, getPDComponents,
        getStoreComponents, Except.isOk, Except.toBool]

/-- C5 witness: a down SQL-tier instance inserted into an otherwise empty
registry produces the same (empty) normalized list and a successful cycle. -/
theorem nonUp_instances_excluded_witness :
    tidbToComponents ([] ++ { ip := "10.0.0.9", port := 4000, statusPort := 10080,
                              status := ComponentStatus.down } :: []) =
      tidbToComponents ([] ++ []) ∧
    (getAllScrapeTargets
        { tidb := Except.ok ([] ++ { ip := "10.0.0.9", port := 4000,
                                     statusPort := 10080,
                                     status := ComponentStatus.down } :: []),
          pd := Except.ok [], store := Except.ok ([], []) }).isOk = true :=
  ⟨(nonUp_instances_excluded
      { ip := "10.0.0.9", port := 4000, statusPort := 10080,
        status := ComponentStatus.down }
      { ip := "10.0.0.9", port := 2379, status := ComponentStatus.down }
      { ip := "10.0.0.9", port := 20160, statusPort := 20180,
        status := ComponentStatus.down }
      (by decide) (by decide) (by decide)).1 [] [],
   ((nonUp_instances_excluded
      { ip := "10.0.0.9", port := 4000, statusPort := 10080,
        status := ComponentStatus.down }
      { ip := "10.0.0.9", port := 2379, status := ComponentStatus.down }
      { ip := "10.0.0.9", port := 20160, statusPort := 20180,
        status := ComponentStatus.down }
      (by decide) (by decide) (by decide)).2.2.2 [] [] [] [] []).2⟩

/-- C10: when every adapter succeeds but no instance is up, the cycle
produces the empty snapshot and loadTopology overwrites whatever snapshot was
stored before with that empty one. -/
theorem allDown_cycle_empties_snapshot (d : TopologyDiscoverer)
    (ts : List TiDBInfo) (ps : List PDInfo) (ks fs : List StoreInfo)
    (hts : ∀ i ∈ ts, i.status ≠ ComponentStatus.up)
    (hps : ∀ i ∈ ps, i.status ≠ ComponentStatus.up)
    (hks : ∀ i ∈ ks, i.status ≠ ComponentStatus.up)
    (hfs : ∀ i ∈ fs, i.status ≠ ComponentStatus.up) :
    getAllScrapeTargets
        { tidb := Except.ok ts, pd := Except.ok ps, store := Except.ok (ks, fs) } =
      Except.ok [] ∧
    (d.loadTopology
        { tidb := Except.ok ts, pd := Except.ok ps,
          store := Except.ok (ks, fs) }).1 =
      { d with components := [] } := by
  have h1 : tidbToComponents ts = [] := by
    simp only [tidbToComponents, List.filterMap_eq_nil_iff]
    intro i hi
    simp [bne_iff_ne, hts i hi]
  have h2 : pdToComponents ps = [] := by
    simp only [pdToComponents, List.filterMap_eq_nil_iff]
    intro i hi
    simp [bne_iff_ne, hps i hi]
  have h3 : storeToComponents ks ComponentTiKV = [] := by
    simp only [storeToComponents, List.filterMap_eq_nil_iff]
    intro i hi
    simp [bne_iff_ne, hks i hi]
  have h4 : storeToComponents fs ComponentTiFlash = [] := by
    simp only [storeToComponents, List.filterMap_eq_nil_iff]
    intro i hi
    simp [bne_iff_ne, hfs i hi]
  have hall : getAllScrapeTargets
      { tidb := Except.ok ts, pd := Except.ok ps, store := Except.ok (ks, fs) } =
      Except.ok [] := by
    simp [getAllScrapeTargets, getTiDBComponents, getPDComponents,
      getStoreComponents, h1, h2, h3, h4]
  exact ⟨hall, by simp [TopologyDiscoverer.loadTopology, hall]⟩

/-- C10 witness: one down instance per tier wipes a previously non-empty
snapshot down to the empty one. -/
theorem allDown_cycle_empties_snapshot_witness :
    (TopologyDiscoverer.loadTopology
        { subscriber := [], components := [{ name := "tidb", ip := "10.0.0.1",
                                             port := 4000, statusPort := 10080 }],
          notifyCh := false, closed := false }
        { tidb := Except.ok [{ ip := "10.0.0.9", port := 4000, statusPort := 10080,
                               status := ComponentStatus.down }],
          pd := Except.ok [{ ip := "10.0.0.9", port := 2379,
                             status := ComponentStatus.tombstone }],
          store := Except.ok ([{ ip := "10.0.0.9", port := 20160,
                                 statusPort := 20180,
                                 status := ComponentStatus.leaving }], []) }).1 =
      { subscriber := [], components := [], notifyCh := false, closed := false } :=
  (allDown_cycle_empties_snapshot
    { subscriber := [], components := [{ name := "tidb", ip := "10.0.0.1",
                                         port := 4000, statusPort := 10080 }],
      notifyCh := false, closed := false }
    [{ ip := "10.0.0.9", port := 4000, statusPort := 10080,
       status := ComponentStatus.down }]
    [{ ip := "10.0.0.9", port := 2379, status := ComponentStatus.tombstone }]
    [{ ip := "10.0.0.9", port := 20160, statusPort := 20180,
       status := ComponentStatus.leaving }]
    []
    (by decide) (by decide) (by decide) (by decide)).2

/-- Fixture: a discoverer whose stored snapshot is the non-empty result of a
fully successful aggregation cycle on regGood. -/
def dLoaded : TopologyDiscoverer :=
  { subscriber := [none],
    components := [{ name := "tidb", ip := "10.0.0.1", port := 4000,
                     statusPort := 10080 },
                   { name := "pd", ip := "10.0.0.2", port := 2379,
                     statusPort := 2379 },
                   { name := "tikv", ip := "10.0.0.3", port := 20160,
                     statusPort := 20180 }],
    notifyCh := false, closed := false }

/-- C1: whatever snapshot is currently stored, a failed cycle leaves the
whole discoverer state exactly as it was (no partial update); and along any
run of the loop whose starting snapshot is the initial empty list or the
result of a fully successful cycle, the stored snapshot keeps that shape
forever. -/
theorem failed_cycle_no_partial_update (d : TopologyDiscoverer)
    (reg0 reg : RegistryState) (events : List LoopEvent) (e : String)
    (h : getAllScrapeTargets reg = Except.error e) :
    (d.loadTopology reg).1 = d ∧
    (snapshotOK d.components →
      snapshotOK ((loadTopologyLoop d reg0 events).components)) := by
  constructor
  · simp [TopologyDiscoverer.loadTopology, h]
  · intro hinit
    exact foldl_loopStep_snapshotOK events _
      (loadTopology_fst_snapshotOK d reg0 hinit)

/-- C1 witness: a failed cycle leaves a discoverer holding a non-empty
successful snapshot completely untouched, and a run over that discoverer with
a failing tick still satisfies the snapshot invariant. -/
theorem failed_cycle_no_partial_update_witness :
    (dLoaded.loadTopology regErr).1 = dLoaded ∧
    snapshotOK ((loadTopologyLoop dLoaded regGood
      [LoopEvent.tick regErr]).components) :=
  ⟨(failed_cycle_no_partial_update dLoaded regGood regErr
      [LoopEvent.tick regErr] "pd unreachable" rfl).1,
   (failed_cycle_no_partial_update dLoaded regGood regErr
      [LoopEvent.tick regErr] "pd unreachable" rfl).2
     (Or.inr ⟨regGood, by decide⟩)⟩

/-- C6: mailboxes are capacity-one Option slots; Subscribe registers a fresh
empty one, and during notifySubscriber each empty mailbox receives the
current snapshot while a mailbox already holding an unread snapshot keeps it
unchanged (the new publish is dropped), at every index, so the publish never
waits on a subscriber. -/
theorem mailbox_capacity_one (d : TopologyDiscoverer) (j : Nat) :
    ((TopologyDiscoverer.Subscribe d).1).subscriber = d.subscriber ++ [none] ∧
    (d.notifySubscriber).subscriber.length = d.subscriber.length ∧
    (d.notifySubscriber).subscriber[j]? =
      (d.subscriber[j]?).map fun ch =>
        match ch with
        | none => some d.components
        | some v => some v := by
  refine ⟨subscribe_fst_subscriber d, ?_, ?_⟩
  · simp [TopologyDiscoverer.notifySubscriber]
  · simp [TopologyDiscoverer.notifySubscriber, List.getElem?_map]

/-- C3 counterexample: with a pending signal, an empty stored snapshot, one
empty mailbox and a registry state on which aggregation would succeed with a
non-empty snapshot, the receive on notifyCh does not behave as a Refreshing
transition: its result differs from running loadTopology and then
notifySubscriber. -/
theorem signal_does_not_refresh_cex :
    loopStep dPending LoopEvent.recvNotify ≠
      ((dPending.loadTopology regGood).1).notifySubscriber ∧
    (loopStep dPending LoopEvent.recvNotify).components = [] ∧
    getAllScrapeTargets regGood ≠ Except.ok [] := by decide

/-- C3 amended: Subscribe best-effort signals the loop, the signal being
dropped silently when one is already pending (the state change is then only
the appended mailbox); upon receiving the coalesced signal the loop drains it
and republishes the current snapshot to subscribers without performing any
aggregation, leaving the stored snapshot unchanged. -/
theorem signal_notifies_without_refresh (d : TopologyDiscoverer)
    (h : d.notifyCh = true) :
    (TopologyDiscoverer.Subscribe d).1 =
      { d with subscriber := d.subscriber ++ [none] } ∧
    (∀ d2 : TopologyDiscoverer, ((TopologyDiscoverer.Subscribe d2).1).notifyCh = true) ∧
    loopStep d LoopEvent.recvNotify = ({ d with notifyCh := false }).notifySubscriber ∧
    (loopStep d LoopEvent.recvNotify).components = d.components := by
  refine ⟨?_, subscribe_fst_notifyCh, ?_, ?_⟩
  · simp [TopologyDiscoverer.Subscribe, h]
  · simp [loopStep, h]
  · simp [loopStep, h]

/-- C3 witness: at the pending-signal fixture the Subscribe signal is dropped
silently and the signal handler keeps the stored snapshot. -/
theorem signal_notifies_without_refresh_witness :
    (TopologyDiscoverer.Subscribe dPending).1 =
      { dPending with subscriber := dPending.subscriber ++ [none] } ∧
    (loopStep dPending LoopEvent.recvNotify).components = dPending.components :=
  ⟨(signal_notifies_without_refresh dPending rfl).1,
   (signal_notifies_without_refresh dPending rfl).2.2.2⟩

/-- C4 counterexample: with one empty mailbox registered before the loop
starts, after the immediate first aggregation (successful and non-empty) the
mailbox is still empty: the first aggregation is not followed by a Notifying
phase. -/
theorem first_aggregation_not_notified_cex :
    (loadTopologyLoop dOneSub regGood []).components ≠ [] ∧
    (loadTopologyLoop dOneSub regGood []).subscriber = [none] ∧
    loadTopologyLoop dOneSub regGood [] ≠
      ((dOneSub.loadTopology regGood).1).notifySubscriber := by decide

/-- C4 amended: every timer-tick cycle proceeds to notifySubscriber whatever
the outcome, so a failed tick cycle still republishes the retained stale
snapshot; but the immediate first aggregation at loop start is not followed
by a Notifying phase — mailboxes stay untouched until the first tick or
signal. -/
theorem tick_cycle_always_notifies (d : TopologyDiscoverer) (reg : RegistryState)
    (e : String) (h : getAllScrapeTargets reg = Except.error e) :
    loopStep d (LoopEvent.tick reg) = d.notifySubscriber ∧
    (loopStep d (LoopEvent.tick reg)).components = d.components ∧
    (∀ (d2 : TopologyDiscoverer) (reg2 : RegistryState),
      loopStep d2 (LoopEvent.tick reg2) =
        ((d2.loadTopology reg2).1).notifySubscriber) ∧
    (∀ (d3 : TopologyDiscoverer) (reg3 : RegistryState),
      (loadTopologyLoop d3 reg3 []).subscriber = d3.subscriber) := by
  refine ⟨?_, ?_, ?_, ?_⟩
  · simp [loopStep, TopologyDiscoverer.loadTopology, h]
  · simp [loopStep, TopologyDiscoverer.loadTopology, h]
  · intro d2 reg2
    rfl
  · intro d3 reg3
    rcases hr : getAllScrapeTargets reg3 with er | cs <;>
      simp [loadTopologyLoop, TopologyDiscoverer.loadTopology, hr]

/-- C4 witness: on the failing registry fixture the tick cycle equals a bare
republish of the stale snapshot. -/
theorem tick_cycle_always_notifies_witness :
    loopStep dOneSub (LoopEvent.tick regErr) = dOneSub.notifySubscriber ∧
    (loopStep dOneSub (LoopEvent.tick regErr)).components = dOneSub.components :=
  ⟨(tick_cycle_always_notifies dOneSub regErr "pd unreachable" rfl).1,
   (tick_cycle_always_notifies dOneSub regErr "pd unreachable" rfl).2.1⟩

/-- C9 counterexample: the iterate-and-send of notifySubscriber is not
performed under the mutex, so no single locking discipline covers both the
append of Subscribe and the iteration of the Notifying phase. -/
theorem notify_iteration_not_under_lock_cex :
    ¬ LockAction.iterateAndSend ∈ underLock notifySubscriberActions false := by
  decide

/-- C9 amended: Subscribe performs its append under the mutex and can wait
only on that mutex acquire, while notifySubscriber never touches the mutex
and performs no blocking action at all — hence Subscribe never blocks on a
concurrent Notifying phase, but the iterate-and-send is not serialized with
the append by any lock. -/
theorem subscribe_lock_discipline :
    LockAction.appendSubscriber ∈ underLock subscribeActions false ∧
    underLock notifySubscriberActions false = [] ∧
    (∀ a ∈ notifySubscriberActions, canBlockOn a = false) ∧
    (∀ a ∈ subscribeActions, canBlockOn a = true → a = LockAction.acquire) ∧
    (∀ d : TopologyDiscoverer, ((TopologyDiscoverer.Subscribe d).1).notifyCh = true) :=
  ⟨by decide, by decide, by decide, by decide, subscribe_fst_notifyCh⟩

/-- C9 witness: the iterate-and-send action itself is non-blocking, and the
Subscribe of the fresh discoverer leaves a pending signal. -/
theorem subscribe_lock_discipline_witness :
    canBlockOn LockAction.iterateAndSend = false ∧
    ((TopologyDiscoverer.Subscribe d0).1).notifyCh = true :=
  ⟨subscribe_lock_discipline.2.2.1 LockAction.iterateAndSend (by decide),
   subscribe_lock_discipline.2.2.2.2 d0⟩

end Ngm
